import Mathlib

/-!
Verification development for the `axon` repository: a Next.js app with a
single analysis endpoint (`src/app/api/analyze-design/route.ts`, handler
`POST`) and an upload/render client (`src/app/page.tsx`).

The endpoint and the client are shallowly embedded below.  JavaScript
values that flow through `JSON.parse` / property access are modelled by the
`Json` inductive together with JS truthiness; JS strings that the code
inspects character by character are modelled as `List Char` (all the
relevant strings are ASCII, where JS UTF-16 indexing and per-character
indexing agree).  The outbound call to the inference provider is a stubbed
input (`ProviderReply`), and `JSON.parse` is an opaque parameter
`parse : List Char → Option Json` (`none` models a thrown parse error).
-/

/-- Model of a JavaScript/JSON value.  A single `null` constructor models
both JS `null` and `undefined`: the two agree on truthiness and both throw
a `TypeError` on property access, which is all the embedded code observes. -/
inductive Json where
  | null : Json
  | bool : Bool → Json
  | num : Int → Json
  | str : String → Json
  | arr : List Json → Json
  | obj : List (String × Json) → Json

/-- JS truthiness: `null`/`undefined`, `false`, `0` and `""` are falsy;
every array and object is truthy. -/
def Json.truthy : Json → Bool
  | .null => false
  | .bool b => b
  | .num n => n != 0
  | .str s => s != ""
  | .arr _ => true
  | .obj _ => true

/-- First-match field lookup in an object's field list; a missing key is
JS `undefined`, modelled as `.null`. -/
def lookupField : List (String × Json) → String → Json
  | [], _ => .null
  | (k', v) :: rest, k => if k' = k then v else lookupField rest k

/-- JS property access `j.k` for the places the embedded code uses it:
on an object it looks the key up (missing key ↦ `undefined`), on any
other non-null primitive it yields `undefined`.  Access on `null` (which
would throw) is handled explicitly at the call sites that can reach it. -/
def Json.getField : Json → String → Json
  | .obj fs, k => lookupField fs k
  | _, _ => .null

/-- Whether the value is a JSON object. -/
def Json.isObj : Json → Bool
  | .obj _ => true
  | _ => false

/-- Whether the value is a JSON string. -/
def Json.isStr : Json → Bool
  | .str _ => true
  | _ => false

/-- Whether the value is JS `null`/`undefined`. -/
def Json.isNull : Json → Bool
  | .null => true
  | _ => false

/-- The key list of an object value. -/
def Json.keysOf : Json → List String
  | .obj fs => fs.map Prod.fst
  | _ => []

/-- JS `a || b`: `a` if truthy, else `b`.  This is the defaulting
combinator used on every token field (route.ts lines 223–232). -/
def jsOr (v d : Json) : Json :=
  if v.truthy then v else d

/-- An HTTP response produced by the endpoint: status code plus JSON body
(`NextResponse.json(body, { status })`). -/
structure HttpResponse where
  status : Nat
  body : Json

/-- Body `{ error: msg }` used by every failure return of the handler. -/
def errBody (msg : String) : Json :=
  .obj [("error", .str msg)]

/-- The whitespace class stripped by JS `String.prototype.trim` (the ASCII
part, which is all the embedded strings contain). -/
def jsWs (c : Char) : Bool :=
  c == ' ' || c == '\t' || c == '\n' || c == '\r' || c == '\x0b' || c == '\x0c'

/-- JS `.trim()` on a character list: strip `jsWs` from both ends. -/
def trimChars (s : List Char) : List Char :=
  ((s.dropWhile jsWs).reverse.dropWhile jsWs).reverse

/-- Index of the first occurrence of `c`, if any. -/
def firstIdxOf (c : Char) : List Char → Option Nat
  | [] => none
  | a :: rest => if a = c then some 0 else (firstIdxOf c rest).map (· + 1)

/-- Model of `cleanContent.match(/\{[\s\S]*\}/)` (route.ts line 201): the
regex matches from the first `{` of the text greedily to the last `}`;
it matches iff some `}` occurs after the first `{`. -/
def extractJsonSpan (s : List Char) : Option (List Char) :=
  match firstIdxOf '{' s, (firstIdxOf '}' s.reverse).map (fun k => s.length - 1 - k) with
  | some i, some j => if i < j then some ((s.drop i).take (j + 1 - i)) else none
  | _, _ => none

/-- Fence-prefix stripping, route.ts lines 190–194: `slice(7)` after a
```` ```json ```` prefix, else `slice(3)` after a bare ```` ``` ````
prefix. -/
def stripLeadingFence (c : List Char) : List Char :=
  if "```json".toList.isPrefixOf c then c.drop 7
  else if "```".toList.isPrefixOf c then c.drop 3
  else c

/-- Fence-suffix stripping, route.ts lines 195–197: `slice(0, -3)` (keep
`length - 3` characters) when the text ends in ```` ``` ````. -/
def stripTrailingFence (c : List Char) : List Char :=
  if "```".toList.isSuffixOf c then c.take (c.length - 3) else c

/-- Model of the defensive-unwrap pipeline, route.ts lines 186–204: trim,
strip a leading fence, strip a trailing fence, trim again, then if the
`/\{[\s\S]*\}/` regex matches use the matched span. -/
def cleanContent (content : List Char) : List Char :=
  let c := trimChars (stripTrailingFence (stripLeadingFence (trimChars content)))
  match extractJsonSpan c with
  | some m => m
  | none => c

/-- The server-side MIME allow-list, route.ts line 102. -/
def supportedFormatsChars : List (List Char) :=
  ["image/png".toList, "image/jpeg".toList, "image/jpg".toList,
   "image/webp".toList, "image/gif".toList]

/-- Model of `imageBase64.match(/^data:(image\/[^;]+);base64,(.+)$/)`
(route.ts line 103).  The match succeeds iff: the string starts with
`data:image/`; a nonempty run of non-`;` characters follows (capture 1 is
`image/` plus that run); then the literal `;base64,`; then a nonempty
payload with no line terminators (JS `.` does not cross `\n`, `\r`,
U+2028, U+2029 and `$` anchors the end).  Returns (mimeType, payload). -/
def dataUrlMatch (s : List Char) : Option (List Char × List Char) :=
  if "data:image/".toList.isPrefixOf s then
    let mtail := (s.drop 11).takeWhile (fun c => c != ';')
    let after := (s.drop 11).dropWhile (fun c => c != ';')
    if mtail != ([] : List Char) && ";base64,".toList.isPrefixOf after then
      let payload := after.drop 8
      if payload != ([] : List Char) &&
          payload.all (fun c => !(c == '\n' || c == '\r' || c == '\u2028' || c == '\u2029')) then
        some ("image/".toList ++ mtail, payload)
      else none
    else none
  else none

/-- Validation prefix of the handler, route.ts lines 78–114, in source
order: presence check (line 82), `startsWith("data:image/")` (line 87),
credential check (line 92), data-URL regex (line 103), MIME allow-list
(line 109).  `imageBase64` is `body.imageBase64` as a JS value; `apiKey`
is `process.env.PERPLEXITY_API_KEY` (`none` = unset; `!apiKey` is also
true for the empty string).  `.ok` carries the matched MIME type and means
control reaches the outbound provider call. -/
def validateRequest (imageBase64 : Json) (apiKey : Option String) :
    Except HttpResponse (List Char) :=
  if !imageBase64.truthy then
    .error ⟨400, errBody "No image provided. Please upload an image."⟩
  else
    match imageBase64 with
    | .str s =>
      if !("data:image/".toList.isPrefixOf s.toList) then
        .error ⟨400, errBody "Invalid image format. Please upload a valid image file."⟩
      else
        match apiKey with
        | none =>
          .error ⟨500, errBody "API key not configured. Please set PERPLEXITY_API_KEY in your environment."⟩
        | some k =>
          if k = "" then
            .error ⟨500, errBody "API key not configured. Please set PERPLEXITY_API_KEY in your environment."⟩
          else
            match dataUrlMatch s.toList with
            | none => .error ⟨400, errBody "Invalid image data format."⟩
            | some (mimeType, _payload) =>
              if supportedFormatsChars.contains mimeType then .ok mimeType
              else .error ⟨400, errBody "Unsupported image format. Please use PNG, JPEG, WEBP, or GIF."⟩
    | _ =>
      -- a truthy non-string `imageBase64` has no `startsWith`: the thrown
      -- TypeError is caught by the outer catch (route.ts line 239)
      .error ⟨500, errBody "An unexpected error occurred. Please try again."⟩

/-- The stubbed reply of the outbound provider call: `response.ok`,
`response.status`, and `choices?.[0]?.message?.content` (`none` when the
chain yields `undefined`). -/
structure ProviderReply where
  ok : Bool
  status : Nat
  content : Option String

/-- The default typography record substituted for a falsy `typography`
field, route.ts lines 224–228. -/
def defaultTypography : Json :=
  .obj [("headings", .str "Sans-serif, semi-bold"),
        ("body", .str "Sans-serif, regular"),
        ("weights", .arr [.str "400", .str "600"])]

/-- The default spacing scale, route.ts line 229. -/
def defaultSpacing : Json :=
  .arr [.str "4px", .str "8px", .str "16px", .str "24px", .str "32px"]

/-- The default radius scale, route.ts line 232. -/
def defaultRadius : Json :=
  .arr [.str "4px", .str "8px", .str "12px"]

/-- Field-level normalization of the parsed `tokens` value, route.ts
lines 222–233: each of the six fields is `model-field || default`. -/
def normalizeTokens (t : Json) : Json :=
  .obj [("colors", jsOr (t.getField "colors") (.arr [])),
        ("typography", jsOr (t.getField "typography") defaultTypography),
        ("spacing", jsOr (t.getField "spacing") defaultSpacing),
        ("animations", jsOr (t.getField "animations") (.arr [])),
        ("elevation", jsOr (t.getField "elevation") (.arr [])),
        ("radius", jsOr (t.getField "radius") defaultRadius)]

/-- Handling of the successfully parsed provider value, route.ts lines
215–238: the required-fields truthiness check, then normalization and the
200 response.  Property access on a parsed `null` throws a TypeError
caught by the outer catch (line 239). -/
def processParsed (analysisResult : Json) : HttpResponse :=
  if analysisResult.isNull then
    ⟨500, errBody "An unexpected error occurred. Please try again."⟩
  else if !(analysisResult.getField "tokens").truthy
      || !(analysisResult.getField "prompt").truthy then
    ⟨500, errBody "AI response missing required fields. Please try again."⟩
  else
    ⟨200, .obj [("tokens", normalizeTokens (analysisResult.getField "tokens")),
                ("prompt", analysisResult.getField "prompt")]⟩

/-- The handler's continuation once the outbound call has been made,
route.ts lines 152–238: provider status mapping, content-presence check,
defensive unwrap + parse (a `parse` result of `none` models the thrown
`JSON.parse` error caught at line 207), then `processParsed`. -/
def afterValidation (provider : ProviderReply) (parse : List Char → Option Json) :
    HttpResponse :=
  if !provider.ok then
    if provider.status = 401 then
      ⟨401, errBody "Invalid API key. Please check your PERPLEXITY_API_KEY."⟩
    else if provider.status = 429 then
      ⟨429, errBody "Rate limit exceeded. Please try again in a moment."⟩
    else if provider.status = 400 then
      ⟨400, errBody "Invalid request. The image may be too large (max 50MB) or in an unsupported format."⟩
    else
      ⟨500, errBody "Failed to analyze design. Please try again."⟩
  else
    match provider.content with
    | none => ⟨500, errBody "No analysis received from AI. Please try again."⟩
    | some content =>
      if content = "" then ⟨500, errBody "No analysis received from AI. Please try again."⟩
      else
        match parse (cleanContent content.toList) with
        | none => ⟨500, errBody "Failed to parse AI response. The model returned invalid JSON. Please try again."⟩
        | some analysisResult => processParsed analysisResult

/-- The full `POST` handler of route.ts as a function of the request's
`imageBase64` value, the configured credential, the stubbed provider
reply, and the opaque `JSON.parse`. -/
def POST (imageBase64 : Json) (apiKey : Option String) (provider : ProviderReply)
    (parse : List Char → Option Json) : HttpResponse :=
  match validateRequest imageBase64 apiKey with
  | .error r => r
  | .ok _ => afterValidation provider parse

/-- `Response.ok` of the fetch API: status in 200–299. -/
def respOk (r : HttpResponse) : Bool :=
  200 ≤ r.status && r.status ≤ 299

/-- The error state `analyzeDesign` leaves in the client after receiving
`r` (page.tsx lines 109–117): `none` on success, otherwise
`errorData.error || "Failed to analyze design"`.  Every response this API
produces carries a string `error`, so String coercion of a truthy
non-string `error` payload is not modelled (the fallback is used). -/
def clientErrorMessage (r : HttpResponse) : Option String :=
  if respOk r then none
  else
    some (match r.body.getField "error" with
          | .str s => if s != "" then s else "Failed to analyze design"
          | _ => "Failed to analyze design")

/-- The client-side state owned by the `Home` component, page.tsx
lines 32–38 (the pieces `handleFile` can touch). -/
structure ClientState where
  image : Option String
  fileName : String
  error : Option String
  result : Option Json

/-- The observable fields of an uploaded `File`. -/
structure JsFile where
  type : String
  size : Nat
  name : String

/-- The client-side MIME allow-list, page.tsx line 42 (note: no
`image/jpg`, unlike the server list). -/
def clientSupportedFormats : List String :=
  ["image/png", "image/jpeg", "image/webp", "image/gif"]

/-- The synchronous part of `handleFile` (page.tsx lines 41–56): type and
size gates with early return, then record the filename and clear error
and result before starting the read. -/
def handleFileSync (s : ClientState) (f : JsFile) : ClientState :=
  if !(clientSupportedFormats.contains f.type) then
    { s with error := some "Please upload a supported image file (PNG, JPG, WEBP, GIF)" }
  else if f.size > 50 * 1024 * 1024 then
    { s with error := some "Image must be less than 50MB" }
  else
    { s with fileName := f.name, error := none, result := none }

/-- Outcome of the asynchronous `FileReader` read. -/
inductive ReadOutcome where
  | success : String → ReadOutcome
  | failure : ReadOutcome

/-- The `FileReader` callbacks of `handleFile` (page.tsx lines 57–65):
`onload` stores the base64 data URL, `onerror` only sets the error. -/
def handleFileRead (s : ClientState) : ReadOutcome → ClientState
  | .success base64 => { s with image := some base64 }
  | .failure => { s with error := some "Failed to read the image file" }

/-! ## Spec-side typing of `DesignTokens`

The following predicates transcribe §3 of the spec ("DesignTokens: a
fixed-shape record …") and the `DesignTokens` TypeScript interface, for
stating the typing claims; they are the spec's words, not the code's
(the code performs no runtime type check). -/

/-- Spec typing: a sequence of strings. -/
def isStrList (j : Json) : Bool :=
  match j with
  | .arr xs => xs.all (fun x => x.isStr)
  | _ => false

/-- Spec typing: a `{name, hex}` record with string fields. -/
def wellTypedColor (j : Json) : Bool :=
  j.isObj && (j.getField "name").isStr && (j.getField "hex").isStr

/-- Spec typing: the `typography` record `{headings, body, weights}`. -/
def wellTypedTypography (j : Json) : Bool :=
  j.isObj && (j.getField "headings").isStr && (j.getField "body").isStr &&
    isStrList (j.getField "weights")

/-- Spec typing of the whole six-field `DesignTokens` record. -/
def wellTypedDesignTokens (j : Json) : Bool :=
  j.isObj &&
  (match j.getField "colors" with
   | .arr xs => xs.all wellTypedColor
   | _ => false) &&
  wellTypedTypography (j.getField "typography") &&
  isStrList (j.getField "spacing") &&
  isStrList (j.getField "animations") &&
  isStrList (j.getField "elevation") &&
  isStrList (j.getField "radius")

/-! ## List helper lemmas -/

/-- Dropping the length of a left factor of an append. -/
theorem drop_length_append (l r : List Char) : (l ++ r).drop l.length = r := by
  induction l with
  | nil => rfl
  | cons a as ih => simp [ih]

/-- Taking the length of a left factor of an append. -/
theorem take_length_append (l r : List Char) : (l ++ r).take l.length = l := by
  induction l with
  | nil => rfl
  | cons a as ih => simp [ih]

/-- A list is a `isPrefixOf` of itself followed by anything. -/
theorem isPrefixOf_append_self (l r : List Char) : l.isPrefixOf (l ++ r) = true := by
  induction l with
  | nil => simp [List.isPrefixOf]
  | cons a as ih => simp [List.isPrefixOf, ih]

/-- Peeling a common left factor off an `isPrefixOf` test. -/
theorem isPrefixOf_append_both (p l1 l2 : List Char) :
    (p ++ l1).isPrefixOf (p ++ l2) = l1.isPrefixOf l2 := by
  induction p with
  | nil => rfl
  | cons a as ih => simpa [List.isPrefixOf] using ih

/-- An `isPrefixOf` test fails whenever the heads differ. -/
theorem isPrefixOf_eq_false_of_head {a b : Char} {l1 l2 : List Char}
    (h1 : l1.head? = some a) (h2 : l2.head? = some b) (hne : (a == b) = false) :
    l1.isPrefixOf l2 = false := by
  cases l1 with
  | nil => simp at h1
  | cons x xs =>
    cases l2 with
    | nil => simp [List.isPrefixOf]
    | cons y ys =>
      simp only [List.head?_cons, Option.some.injEq] at h1 h2
      subst h1; subst h2
      simp [List.isPrefixOf, hne]

/-- A list is a `isSuffixOf` of anything followed by itself. -/
theorem isSuffixOf_append_self (l r : List Char) : l.isSuffixOf (r ++ l) = true := by
  simp [List.isSuffixOf, List.reverse_append, isPrefixOf_append_self]

/-- `dropWhile` keeps an appended list whole when its first element
already fails the predicate. -/
theorem dropWhile_cons_of_false {p : Char → Bool} {a : Char} (l : List Char)
    (h : p a = false) : (a :: l).dropWhile p = a :: l := by
  simp [List.dropWhile, h]

/-- `takeWhile` over `l ++ a :: r` stops exactly at `a` when all of `l`
satisfies the predicate and `a` does not. -/
theorem takeWhile_append_of_false {p : Char → Bool} {a : Char} (l r : List Char)
    (hl : ∀ c ∈ l, p c = true) (ha : p a = false) :
    (l ++ a :: r).takeWhile p = l := by
  induction l with
  | nil => simp [List.takeWhile, ha]
  | cons x xs ih =>
    have hx : p x = true := hl x (by simp)
    have hxs : ∀ c ∈ xs, p c = true := fun c hc => hl c (by simp [hc])
    simp [List.takeWhile, hx, ih hxs]

/-- `dropWhile` over `l ++ a :: r` drops exactly `l` when all of `l`
satisfies the predicate and `a` does not. -/
theorem dropWhile_append_of_false {p : Char → Bool} {a : Char} (l r : List Char)
    (hl : ∀ c ∈ l, p c = true) (ha : p a = false) :
    (l ++ a :: r).dropWhile p = a :: r := by
  induction l with
  | nil => simp [List.dropWhile, ha]
  | cons x xs ih =>
    have hx : p x = true := hl x (by simp)
    have hxs : ∀ c ∈ xs, p c = true := fun c hc => hl c (by simp [hc])
    simp [List.dropWhile, hx, ih hxs]

/-- `firstIdxOf` skips a left factor free of the sought character. -/
theorem firstIdxOf_append_of_not_mem {c : Char} (l r : List Char) (h : c ∉ l) :
    firstIdxOf c (l ++ r) = (firstIdxOf c r).map (· + l.length) := by
  induction l with
  | nil =>
    simp only [List.nil_append, List.length_nil]
    cases firstIdxOf c r <;> simp
  | cons a as ih =>
    have ha : ¬ a = c := fun hac => h (by simp [hac])
    have has : c ∉ as := fun hc => h (by simp [hc])
    rw [List.cons_append, firstIdxOf, if_neg ha, ih has]
    cases firstIdxOf c r <;> simp [Nat.add_assoc, Nat.add_comm 1]

/-- `firstIdxOf` finds the head immediately. -/
theorem firstIdxOf_cons_self (c : Char) (l : List Char) :
    firstIdxOf c (c :: l) = some 0 := by
  simp [firstIdxOf]

/-- `dropWhile` never lengthens a list. -/
theorem length_dropWhile_le' (p : Char → Bool) (l : List Char) :
    (l.dropWhile p).length ≤ l.length := by
  induction l with
  | nil => simp
  | cons a as ih =>
    rw [List.dropWhile_cons]
    split
    · exact Nat.le_trans ih (Nat.le_succ _)
    · simp

/-- A nonempty `dropWhile`-stable list stays stable under appending. -/
theorem dropWhile_append_stable {p : Char → Bool} (l1 rest : List Char)
    (h : l1.dropWhile p = l1) (hn : l1 ≠ []) :
    (l1 ++ rest).dropWhile p = l1 ++ rest := by
  cases l1 with
  | nil => exact absurd rfl hn
  | cons a as =>
    have ha : p a = false := by
      by_contra hpa
      have hpa' : p a = true := by revert hpa; cases p a <;> simp
      rw [List.dropWhile_cons, if_pos hpa'] at h
      have hlen := congrArg List.length h
      have hle := length_dropWhile_le' p as
      simp at hlen
      omega
    rw [List.cons_append]
    exact List.dropWhile_cons_of_neg (by simp [ha])

/-- `trimChars` fixes a list whose two ends already resist `dropWhile`. -/
theorem trimChars_append3 (l1 l2 l3 : List Char)
    (h1 : l1.dropWhile jsWs = l1) (h1n : l1 ≠ [])
    (h3 : l3.reverse.dropWhile jsWs = l3.reverse) (h3n : l3 ≠ []) :
    trimChars (l1 ++ l2 ++ l3) = l1 ++ l2 ++ l3 := by
  unfold trimChars
  rw [List.append_assoc, dropWhile_append_stable l1 _ h1 h1n]
  rw [(by simp : (l1 ++ (l2 ++ l3)).reverse = l3.reverse ++ (l2.reverse ++ l1.reverse))]
  rw [dropWhile_append_stable l3.reverse _ h3 (by simpa using h3n)]
  simp

/-- Trimming fixes a brace-delimited text. -/
theorem trimChars_braces (m : List Char) :
    trimChars ('{' :: (m ++ ['}'])) = '{' :: (m ++ ['}']) := by
  unfold trimChars
  rw [List.dropWhile_cons_of_neg (by decide)]
  rw [(by simp : ('{' :: (m ++ ['}'])).reverse = '}' :: (m.reverse ++ ['{']))]
  rw [List.dropWhile_cons_of_neg (by decide)]
  simp

/-- Trimming a brace-delimited text padded with one newline on each side
recovers the text. -/
theorem trimChars_nl_braces (m : List Char) :
    trimChars (['\n'] ++ ('{' :: (m ++ ['}'])) ++ ['\n']) = '{' :: (m ++ ['}']) := by
  unfold trimChars
  rw [(by simp : ['\n'] ++ ('{' :: (m ++ ['}'])) ++ ['\n'] = '\n' :: '{' :: (m ++ ['}', '\n']))]
  rw [List.dropWhile_cons_of_pos (by decide), List.dropWhile_cons_of_neg (by decide)]
  rw [(by simp : ('{' :: (m ++ ['}', '\n'])).reverse = '\n' :: '}' :: (m.reverse ++ ['{']))]
  rw [List.dropWhile_cons_of_pos (by decide), List.dropWhile_cons_of_neg (by decide)]
  simp

/-- The greedy brace-span extraction recovers a brace-delimited text from
surrounding prose: with no `{` in the leading prose and no `}` in the
trailing prose, the match runs from the text's first `{` to its last `}`. -/
theorem extract_span_general (p1 m p2 : List Char)
    (h1 : '{' ∉ p1) (h2 : '}' ∉ p2) :
    extractJsonSpan (p1 ++ ('{' :: (m ++ ['}'])) ++ p2) = some ('{' :: (m ++ ['}'])) := by
  have hfst : firstIdxOf '{' (p1 ++ ('{' :: (m ++ ['}'])) ++ p2) = some p1.length := by
    rw [List.append_assoc, firstIdxOf_append_of_not_mem p1 _ h1]
    rw [List.cons_append, firstIdxOf_cons_self]
    simp
  have hrevshape : (p1 ++ ('{' :: (m ++ ['}'])) ++ p2).reverse
      = p2.reverse ++ ('}' :: (m.reverse ++ ('{' :: p1.reverse))) := by
    simp
  have hsnd : firstIdxOf '}' (p1 ++ ('{' :: (m ++ ['}'])) ++ p2).reverse
      = some p2.length := by
    rw [hrevshape, firstIdxOf_append_of_not_mem p2.reverse _ (by simpa using h2)]
    rw [firstIdxOf_cons_self]
    simp
  have hlen : (p1 ++ ('{' :: (m ++ ['}'])) ++ p2).length
      = p1.length + m.length + 2 + p2.length := by
    simp
    omega
  unfold extractJsonSpan
  rw [hfst, hsnd]
  simp only [Option.map_some']
  rw [hlen]
  have hj : p1.length + m.length + 2 + p2.length - 1 - p2.length
      = p1.length + (m.length + 1) := by omega
  rw [hj, if_pos (by omega)]
  rw [List.append_assoc, drop_length_append]
  have htake : p1.length + (m.length + 1) + 1 - p1.length = ('{' :: (m ++ ['}'])).length := by
    simp
    omega
  rw [htake, take_length_append]

/-- The brace-span extraction fixes a text that is already brace-delimited. -/
theorem extract_braces (m : List Char) :
    extractJsonSpan ('{' :: (m ++ ['}'])) = some ('{' :: (m ++ ['}'])) := by
  have h := extract_span_general [] m [] (by simp) (by simp)
  simpa using h

/-- Unwrapping a ```` ```json ````-fenced brace-delimited text recovers
the text exactly. -/
theorem cleanContent_fenced_json (m : List Char) :
    cleanContent ("```json\n".toList ++ ('{' :: (m ++ ['}'])) ++ "\n```".toList)
      = '{' :: (m ++ ['}']) := by
  have hF : "```json\n".toList = "```json".toList ++ ['\n'] := by decide
  have hT : "\n```".toList = ['\n'] ++ "```".toList := by decide
  have h0 : trimChars ("```json\n".toList ++ ('{' :: (m ++ ['}'])) ++ "\n```".toList)
      = "```json\n".toList ++ ('{' :: (m ++ ['}'])) ++ "\n```".toList :=
    trimChars_append3 _ _ _ (by decide) (by decide) (by decide) (by decide)
  have h1 : stripLeadingFence ("```json\n".toList ++ ('{' :: (m ++ ['}'])) ++ "\n```".toList)
      = ['\n'] ++ ('{' :: (m ++ ['}'])) ++ "\n```".toList := by
    unfold stripLeadingFence
    rw [hF]
    rw [(by simp : ("```json".toList ++ ['\n']) ++ ('{' :: (m ++ ['}'])) ++ "\n```".toList
        = "```json".toList ++ (['\n'] ++ ('{' :: (m ++ ['}'])) ++ "\n```".toList))]
    rw [isPrefixOf_append_self, if_pos rfl]
    rw [(by decide : (7 : Nat) = "```json".toList.length)]
    exact drop_length_append _ _
  have h2 : stripTrailingFence (['\n'] ++ ('{' :: (m ++ ['}'])) ++ "\n```".toList)
      = ['\n'] ++ ('{' :: (m ++ ['}'])) ++ ['\n'] := by
    unfold stripTrailingFence
    rw [hT]
    rw [(by simp : ['\n'] ++ ('{' :: (m ++ ['}'])) ++ (['\n'] ++ "```".toList)
        = (['\n'] ++ ('{' :: (m ++ ['}'])) ++ ['\n']) ++ "```".toList)]
    rw [isSuffixOf_append_self, if_pos rfl]
    have hlen : ((['\n'] ++ ('{' :: (m ++ ['}'])) ++ ['\n']) ++ "```".toList).length - 3
        = (['\n'] ++ ('{' :: (m ++ ['}'])) ++ ['\n']).length := by
      simp
    rw [hlen]
    exact take_length_append _ _
  unfold cleanContent
  rw [h0, h1, h2, trimChars_nl_braces]
  simp [extract_braces]

/-- Unwrapping a bare-fenced (no language tag) brace-delimited text
recovers the text exactly. -/
theorem cleanContent_fenced_plain (m : List Char) :
    cleanContent ("```\n".toList ++ ('{' :: (m ++ ['}'])) ++ "\n```".toList)
      = '{' :: (m ++ ['}']) := by
  have hF : "```\n".toList = "```".toList ++ ['\n'] := by decide
  have hT : "\n```".toList = ['\n'] ++ "```".toList := by decide
  have h0 : trimChars ("```\n".toList ++ ('{' :: (m ++ ['}'])) ++ "\n```".toList)
      = "```\n".toList ++ ('{' :: (m ++ ['}'])) ++ "\n```".toList :=
    trimChars_append3 _ _ _ (by decide) (by decide) (by decide) (by decide)
  have hshape : "```\n".toList ++ ('{' :: (m ++ ['}'])) ++ "\n```".toList
      = "```".toList ++ (['\n'] ++ ('{' :: (m ++ ['}'])) ++ "\n```".toList) := by
    rw [hF]; simp
  have hnotjson : "```json".toList.isPrefixOf
      ("```\n".toList ++ ('{' :: (m ++ ['}'])) ++ "\n```".toList) = false := by
    rw [hshape, (by decide : "```json".toList = "```".toList ++ "json".toList)]
    rw [isPrefixOf_append_both]
    exact isPrefixOf_eq_false_of_head rfl rfl (by decide)
  have h1 : stripLeadingFence ("```\n".toList ++ ('{' :: (m ++ ['}'])) ++ "\n```".toList)
      = ['\n'] ++ ('{' :: (m ++ ['}'])) ++ "\n```".toList := by
    unfold stripLeadingFence
    rw [hnotjson, if_neg (by simp)]
    rw [hshape, isPrefixOf_append_self, if_pos rfl]
    rw [(by decide : (3 : Nat) = "```".toList.length)]
    exact drop_length_append _ _
  have h2 : stripTrailingFence (['\n'] ++ ('{' :: (m ++ ['}'])) ++ "\n```".toList)
      = ['\n'] ++ ('{' :: (m ++ ['}'])) ++ ['\n'] := by
    unfold stripTrailingFence
    rw [hT]
    rw [(by simp : ['\n'] ++ ('{' :: (m ++ ['}'])) ++ (['\n'] ++ "```".toList)
        = (['\n'] ++ ('{' :: (m ++ ['}'])) ++ ['\n']) ++ "```".toList)]
    rw [isSuffixOf_append_self, if_pos rfl]
    have hlen : ((['\n'] ++ ('{' :: (m ++ ['}'])) ++ ['\n']) ++ "```".toList).length - 3
        = (['\n'] ++ ('{' :: (m ++ ['}'])) ++ ['\n']).length := by
      simp
    rw [hlen]
    exact take_length_append _ _
  unfold cleanContent
  rw [h0, h1, h2, trimChars_nl_braces]
  simp [extract_braces]

/-- Unwrapping an unfenced brace-delimited text leaves it unchanged. -/
theorem cleanContent_plain (m : List Char) :
    cleanContent ('{' :: (m ++ ['}'])) = '{' :: (m ++ ['}']) := by
  have hnotjson : "```json".toList.isPrefixOf ('{' :: (m ++ ['}'])) = false :=
    isPrefixOf_eq_false_of_head rfl rfl (by decide)
  have hnotbare : "```".toList.isPrefixOf ('{' :: (m ++ ['}'])) = false :=
    isPrefixOf_eq_false_of_head rfl rfl (by decide)
  have hrev : ('{' :: (m ++ ['}'])).reverse = '}' :: (m.reverse ++ ['{']) := by simp
  have hnotsuf : "```".toList.isSuffixOf ('{' :: (m ++ ['}'])) = false := by
    unfold List.isSuffixOf
    rw [hrev]
    exact isPrefixOf_eq_false_of_head rfl rfl (by decide)
  have h1 : stripLeadingFence ('{' :: (m ++ ['}'])) = '{' :: (m ++ ['}']) := by
    unfold stripLeadingFence
    rw [hnotjson, hnotbare]
    simp
  have h2 : stripTrailingFence ('{' :: (m ++ ['}'])) = '{' :: (m ++ ['}']) := by
    unfold stripTrailingFence
    rw [hnotsuf]
    simp
  unfold cleanContent
  rw [trimChars_braces, h1, h2, trimChars_braces]
  simp [extract_braces]

/-! ## Claim theorems -/

/-- C5 (confirmed): for every JSON object text `t = '{' :: (m ++ ['}'])`,
the defensive-unwrap step applied to the fenced wrappings
```` ```json\n<t>\n``` ```` and ```` ```\n<t>\n``` ```` yields exactly `t`,
which is also what the unwrap step yields on `t` unfenced — hence any
parser parses the unwrapped fenced content identically to `t`. -/
theorem c5_fence_unwrap_preserves_json (m : List Char)
    (parse : List Char → Option Json) :
    cleanContent ("```json\n".toList ++ ('{' :: (m ++ ['}'])) ++ "\n```".toList)
        = '{' :: (m ++ ['}'])
    ∧ cleanContent ("```\n".toList ++ ('{' :: (m ++ ['}'])) ++ "\n```".toList)
        = '{' :: (m ++ ['}'])
    ∧ cleanContent ('{' :: (m ++ ['}'])) = '{' :: (m ++ ['}'])
    ∧ parse (cleanContent ("```json\n".toList ++ ('{' :: (m ++ ['}'])) ++ "\n```".toList))
        = parse (cleanContent ('{' :: (m ++ ['}']))) :=
  ⟨cleanContent_fenced_json m, cleanContent_fenced_plain m, cleanContent_plain m, by
    rw [cleanContent_fenced_json m, cleanContent_plain m]⟩

/-- C6 (confirmed): when the cleaned content is a brace-delimited span
surrounded by prose (no `{` before it, no `}` after it), the
bracket-extraction step selects exactly the substring from the first `{`
to the last `}` — the span itself — ignoring the prose. -/
theorem c6_bracket_extraction_ignores_prose (p1 m p2 : List Char)
    (h1 : '{' ∉ p1) (h2 : '}' ∉ p2) :
    extractJsonSpan (p1 ++ ('{' :: (m ++ ['}'])) ++ p2) = some ('{' :: (m ++ ['}'])) :=
  extract_span_general p1 m p2 h1 h2

/-- Witness for C6 at a concrete prose-wrapped input. -/
theorem c6_bracket_extraction_ignores_prose_witness :
    extractJsonSpan ("Here is the JSON: ".toList
        ++ ('{' :: ("\"a\":1".toList ++ ['}'])) ++ " hope this helps".toList)
      = some ('{' :: ("\"a\":1".toList ++ ['}'])) :=
  c6_bracket_extraction_ignores_prose "Here is the JSON: ".toList "\"a\":1".toList
    " hope this helps".toList (by decide) (by decide)

/-- C4 (confirmed): normalization substitutes the documented default for
each absent-or-falsy token field — spacing
`["4px","8px","16px","24px","32px"]`, radius `["4px","8px","12px"]`, the
default typography record, and empty sequences for colors, animations and
elevation — while truthy fields pass through unchanged. -/
theorem c4_normalization_defaults (t : Json) :
    (normalizeTokens t).getField "colors"
        = (if (t.getField "colors").truthy then t.getField "colors" else Json.arr [])
    ∧ (normalizeTokens t).getField "typography"
        = (if (t.getField "typography").truthy then t.getField "typography"
           else Json.obj [("headings", .str "Sans-serif, semi-bold"),
                          ("body", .str "Sans-serif, regular"),
                          ("weights", .arr [.str "400", .str "600"])])
    ∧ (normalizeTokens t).getField "spacing"
        = (if (t.getField "spacing").truthy then t.getField "spacing"
           else Json.arr [.str "4px", .str "8px", .str "16px", .str "24px", .str "32px"])
    ∧ (normalizeTokens t).getField "animations"
        = (if (t.getField "animations").truthy then t.getField "animations" else Json.arr [])
    ∧ (normalizeTokens t).getField "elevation"
        = (if (t.getField "elevation").truthy then t.getField "elevation" else Json.arr [])
    ∧ (normalizeTokens t).getField "radius"
        = (if (t.getField "radius").truthy then t.getField "radius"
           else Json.arr [.str "4px", .str "8px", .str "12px"]) :=
  ⟨rfl, rfl, rfl, rfl, rfl, rfl⟩

/-- A parsed object with a falsy `tokens` or falsy `prompt` is rejected
with the missing-required-fields 500 (route.ts lines 215–219). -/
theorem processParsed_missing_fields (fs : List (String × Json))
    (h : ((Json.obj fs).getField "tokens").truthy = false
       ∨ ((Json.obj fs).getField "prompt").truthy = false) :
    processParsed (Json.obj fs)
      = ⟨500, errBody "AI response missing required fields. Please try again."⟩ := by
  unfold processParsed
  rcases h with h | h <;> simp [Json.isNull, h]

/-- C3 (corrected): the required-fields check tests truthiness, not type:
a parsed object passes iff both `tokens` and `prompt` are truthy (any
falsy one — in particular a missing `tokens` key — yields the 500
missing-required-fields error, never a 200), but a 200 does not imply
`tokens` is an object or `prompt` is a string. -/
theorem c3_required_fields_truthiness (fs : List (String × Json)) :
    (((Json.obj fs).getField "tokens").truthy = false
        ∨ ((Json.obj fs).getField "prompt").truthy = false →
      processParsed (Json.obj fs)
        = ⟨500, errBody "AI response missing required fields. Please try again."⟩)
    ∧ ((processParsed (Json.obj fs)).status = 200 →
      ((Json.obj fs).getField "tokens").truthy = true
        ∧ ((Json.obj fs).getField "prompt").truthy = true) := by
  refine ⟨processParsed_missing_fields fs, ?_⟩
  intro h200
  cases htk : ((Json.obj fs).getField "tokens").truthy <;>
    cases hpr : ((Json.obj fs).getField "prompt").truthy <;>
      simp_all [processParsed, Json.isNull]

/-- Witness for C3's amended statement: the empty parsed object is
rejected with the missing-required-fields error. -/
theorem c3_required_fields_truthiness_witness :
    processParsed (Json.obj [])
      = ⟨500, errBody "AI response missing required fields. Please try again."⟩ :=
  (c3_required_fields_truthiness []).1 (Or.inl rfl)

/-- Counterexample to C3 as stated: a parsed object whose `tokens` is the
number 5 (not an object) and whose `prompt` is the number 7 (not a
string) still produces a 200 from the full handler, because the check
only tests truthiness. -/
theorem c3_counterexample_truthy_nonobject :
    (POST (Json.str "data:image/png;base64,AAAA") (some "k")
        ⟨true, 200, some "x"⟩
        (fun _ => some (Json.obj [("tokens", Json.num 5), ("prompt", Json.num 7)]))).status
      = 200
    ∧ ((Json.obj [("tokens", Json.num 5), ("prompt", Json.num 7)]).getField "tokens").isObj
      = false
    ∧ ((Json.obj [("tokens", Json.num 5), ("prompt", Json.num 7)]).getField "prompt").isStr
      = false :=
  ⟨rfl, rfl, rfl⟩

/-- C10 (confirmed): once the handler reaches a parsed object whose
`prompt` is the empty string, or whose `tokens` is falsy, it returns the
500 missing-required-fields error — present-but-falsy counts as absent. -/
theorem c10_falsy_required_field_rejected
    (imageBase64 : Json) (apiKey : Option String) (mt : List Char)
    (provider : ProviderReply) (parse : List Char → Option Json)
    (c : String) (fs : List (String × Json))
    (hval : validateRequest imageBase64 apiKey = .ok mt)
    (hok : provider.ok = true) (hct : provider.content = some c) (hc : ¬ c = "")
    (hparse : parse (cleanContent c.toList) = some (Json.obj fs))
    (hfalsy : (Json.obj fs).getField "prompt" = Json.str ""
        ∨ ((Json.obj fs).getField "tokens").truthy = false) :
    POST imageBase64 apiKey provider parse
      = ⟨500, errBody "AI response missing required fields. Please try again."⟩ := by
  unfold POST
  rw [hval]
  unfold afterValidation
  rw [hok, hct]
  simp only [Bool.not_true, Bool.false_eq_true, if_false, if_neg hc, hparse]
  apply processParsed_missing_fields
  rcases hfalsy with h | h
  · right
    rw [h]
    rfl
  · left
    exact h

/-- Witness for C10: a parsed object with `tokens` present and `prompt`
present but equal to `""` is rejected by the full handler. -/
theorem c10_falsy_required_field_rejected_witness :
    POST (Json.str "data:image/webp;base64,CCCC") (some "key") ⟨true, 200, some "x"⟩
        (fun _ => some (Json.obj [("tokens", Json.obj [("colors", Json.arr [])]),
                                  ("prompt", Json.str "")]))
      = ⟨500, errBody "AI response missing required fields. Please try again."⟩ :=
  c10_falsy_required_field_rejected _ _ "image/webp".toList _ _ "x" _
    rfl rfl rfl (by decide) rfl (Or.inl rfl)

/-- Every early-validation failure carries status 400 or 500. -/
theorem validateRequest_error_status (imageBase64 : Json) (apiKey : Option String)
    (r : HttpResponse) (h : validateRequest imageBase64 apiKey = .error r) :
    r.status = 400 ∨ r.status = 500 := by
  unfold validateRequest at h
  repeat' split at h
  all_goals try (injection h with h2; subst h2; simp)
  all_goals simp_all

/-- Reduction of the provider stage on a non-success reply. -/
theorem afterValidation_not_ok (provider : ProviderReply)
    (parse : List Char → Option Json) (hok : provider.ok = false) :
    afterValidation provider parse =
      if provider.status = 401 then
        ⟨401, errBody "Invalid API key. Please check your PERPLEXITY_API_KEY."⟩
      else if provider.status = 429 then
        ⟨429, errBody "Rate limit exceeded. Please try again in a moment."⟩
      else if provider.status = 400 then
        ⟨400, errBody "Invalid request. The image may be too large (max 50MB) or in an unsupported format."⟩
      else ⟨500, errBody "Failed to analyze design. Please try again."⟩ := by
  unfold afterValidation
  rw [hok]
  simp

/-- Reduction of the provider stage on a success reply with no usable
content. -/
theorem afterValidation_no_content (provider : ProviderReply)
    (parse : List Char → Option Json) (hok : provider.ok = true)
    (hct : provider.content = none) :
    afterValidation provider parse
      = ⟨500, errBody "No analysis received from AI. Please try again."⟩ := by
  unfold afterValidation
  rw [hok, hct]
  simp

/-- Reduction of the provider stage on a success reply carrying content. -/
theorem afterValidation_content (provider : ProviderReply)
    (parse : List Char → Option Json) (c : String) (hok : provider.ok = true)
    (hct : provider.content = some c) :
    afterValidation provider parse =
      if c = "" then ⟨500, errBody "No analysis received from AI. Please try again."⟩
      else
        match parse (cleanContent c.toList) with
        | none => ⟨500, errBody "Failed to parse AI response. The model returned invalid JSON. Please try again."⟩
        | some analysisResult => processParsed analysisResult := by
  unfold afterValidation
  rw [hok, hct]
  simp

/-- The 200 branch of `processParsed`, reached exactly when the parsed
value is non-null and both required fields are truthy. -/
theorem processParsed_success (parsed : Json) (hnull : parsed.isNull = false)
    (htk : (parsed.getField "tokens").truthy = true)
    (hpr : (parsed.getField "prompt").truthy = true) :
    processParsed parsed
      = ⟨200, .obj [("tokens", normalizeTokens (parsed.getField "tokens")),
                    ("prompt", parsed.getField "prompt")]⟩ := by
  unfold processParsed
  rw [hnull, htk, hpr]
  simp

/-- A 200 from `processParsed` forces non-null input and truthy required
fields. -/
theorem processParsed_status_200_inv (parsed : Json)
    (h200 : (processParsed parsed).status = 200) :
    parsed.isNull = false ∧ (parsed.getField "tokens").truthy = true
      ∧ (parsed.getField "prompt").truthy = true := by
  cases hnull : parsed.isNull <;>
    cases htk : (parsed.getField "tokens").truthy <;>
      cases hpr : (parsed.getField "prompt").truthy <;>
        simp_all [processParsed]

/-- Every 200 response of the full handler is produced by
`processParsed` on some parsed value. -/
theorem POST_200_via_processParsed (imageBase64 : Json) (apiKey : Option String)
    (provider : ProviderReply) (parse : List Char → Option Json)
    (h : (POST imageBase64 apiKey provider parse).status = 200) :
    ∃ j, POST imageBase64 apiKey provider parse = processParsed j := by
  unfold POST at h ⊢
  obtain ⟨r, hval⟩ | ⟨mt, hval⟩ :
      (∃ r, validateRequest imageBase64 apiKey = .error r)
        ∨ (∃ mt, validateRequest imageBase64 apiKey = .ok mt) := by
    cases validateRequest imageBase64 apiKey with
    | error r => exact Or.inl ⟨r, rfl⟩
    | ok mt => exact Or.inr ⟨mt, rfl⟩
  · rw [hval] at h ⊢
    replace h : r.status = 200 := h
    refine absurd h ?_
    rcases validateRequest_error_status imageBase64 apiKey r hval with h' | h' <;> omega
  · rw [hval] at h ⊢
    replace h : (afterValidation provider parse).status = 200 := h
    show ∃ j, afterValidation provider parse = processParsed j
    cases hok : provider.ok with
    | false =>
      rw [afterValidation_not_ok provider parse hok] at h
      refine absurd h ?_
      repeat' split
      all_goals simp
    | true =>
      cases hct : provider.content with
      | none =>
        rw [afterValidation_no_content provider parse hok hct] at h
        simp at h
      | some c =>
        rw [afterValidation_content provider parse c hok hct] at h ⊢
        by_cases hc : c = ""
        · rw [if_pos hc] at h
          simp at h
        · rw [if_neg hc] at h ⊢
          obtain hnone | ⟨j, hj⟩ :
              parse (cleanContent c.toList) = none
                ∨ (∃ j, parse (cleanContent c.toList) = some j) := by
            cases parse (cleanContent c.toList) with
            | none => exact Or.inl rfl
            | some j => exact Or.inr ⟨j, rfl⟩
          · rw [hnone] at h
            replace h : (500 : Nat) = 200 := h
            exact absurd h (by decide)
          · rw [hj]
            exact ⟨j, rfl⟩

/-- C2 (amended, proved): every 200 response is produced by the
parse-and-normalize path, its `tokens` record carries exactly the six
fields, and each field is the model's field when that was truthy and the
documented default otherwise; the all-defaults record is well-typed, but
a truthy model field passes through unchanged (so its type is whatever
the model supplied — see the counterexample). -/
theorem c2_200_token_shape :
    (∀ (imageBase64 : Json) (apiKey : Option String) (provider : ProviderReply)
        (parse : List Char → Option Json),
      (POST imageBase64 apiKey provider parse).status = 200 →
        ∃ j, POST imageBase64 apiKey provider parse = processParsed j)
    ∧ (∀ parsed : Json, (processParsed parsed).status = 200 →
      ((processParsed parsed).body.getField "tokens").keysOf
          = ["colors", "typography", "spacing", "animations", "elevation", "radius"]
      ∧ ((processParsed parsed).body.getField "tokens").getField "colors"
          = jsOr ((parsed.getField "tokens").getField "colors") (Json.arr [])
      ∧ ((processParsed parsed).body.getField "tokens").getField "typography"
          = jsOr ((parsed.getField "tokens").getField "typography") defaultTypography
      ∧ ((processParsed parsed).body.getField "tokens").getField "spacing"
          = jsOr ((parsed.getField "tokens").getField "spacing") defaultSpacing
      ∧ ((processParsed parsed).body.getField "tokens").getField "animations"
          = jsOr ((parsed.getField "tokens").getField "animations") (Json.arr [])
      ∧ ((processParsed parsed).body.getField "tokens").getField "elevation"
          = jsOr ((parsed.getField "tokens").getField "elevation") (Json.arr [])
      ∧ ((processParsed parsed).body.getField "tokens").getField "radius"
          = jsOr ((parsed.getField "tokens").getField "radius") defaultRadius)
    ∧ wellTypedDesignTokens (normalizeTokens Json.null) = true := by
  refine ⟨POST_200_via_processParsed, ?_, rfl⟩
  intro parsed h200
  obtain ⟨hnull, htk, hpr⟩ := processParsed_status_200_inv parsed h200
  rw [processParsed_success parsed hnull htk hpr]
  exact ⟨rfl, rfl, rfl, rfl, rfl, rfl, rfl⟩

/-- Witness for C2's amended statement at a concrete empty tokens
object. -/
theorem c2_200_token_shape_witness :
    (POST (Json.str "data:image/gif;base64,DDDD") (some "key3") ⟨true, 200, some "z"⟩
        (fun _ => some (Json.obj [("tokens", Json.obj []), ("prompt", Json.str "p")]))).status
      = 200
    ∧ ((processParsed (Json.obj [("tokens", Json.obj []),
          ("prompt", Json.str "p")])).body.getField "tokens").keysOf
      = ["colors", "typography", "spacing", "animations", "elevation", "radius"] :=
  ⟨rfl, (c2_200_token_shape.2.1
    (Json.obj [("tokens", Json.obj []), ("prompt", Json.str "p")]) rfl).1⟩

/-- Counterexample to C2 as stated: with a truthy but ill-typed `colors`
(a bare string), the handler still returns 200 and the returned `tokens`
record is not correctly typed — normalization passes truthy fields
through unchanged. -/
theorem c2_counterexample_passthrough_ill_typed :
    (POST (Json.str "data:image/jpeg;base64,BBBB") (some "key2") ⟨true, 200, some "y"⟩
        (fun _ => some (Json.obj [("tokens", Json.obj [("colors", Json.str "red")]),
                                  ("prompt", Json.str "p")]))).status = 200
    ∧ wellTypedDesignTokens ((POST (Json.str "data:image/jpeg;base64,BBBB") (some "key2")
        ⟨true, 200, some "y"⟩
        (fun _ => some (Json.obj [("tokens", Json.obj [("colors", Json.str "red")]),
                                  ("prompt", Json.str "p")]))).body.getField "tokens") = false :=
  ⟨rfl, rfl⟩

/-- C7 (confirmed): a non-success provider reply is mapped 401↦401
invalid-API-key, 429↦429 rate-limit, 400↦400 too-large/unsupported, and
any other status to 500 with the generic failure message; in each case
the client's error state carries exactly the endpoint's error string. -/
theorem c7_provider_error_mapping
    (imageBase64 : Json) (apiKey : Option String) (mt : List Char)
    (provider : ProviderReply) (parse : List Char → Option Json)
    (hval : validateRequest imageBase64 apiKey = .ok mt)
    (hok : provider.ok = false) :
    (provider.status = 401 →
      POST imageBase64 apiKey provider parse
          = ⟨401, errBody "Invalid API key. Please check your PERPLEXITY_API_KEY."⟩
        ∧ clientErrorMessage (POST imageBase64 apiKey provider parse)
          = some "Invalid API key. Please check your PERPLEXITY_API_KEY.")
    ∧ (provider.status = 429 →
      POST imageBase64 apiKey provider parse
          = ⟨429, errBody "Rate limit exceeded. Please try again in a moment."⟩
        ∧ clientErrorMessage (POST imageBase64 apiKey provider parse)
          = some "Rate limit exceeded. Please try again in a moment.")
    ∧ (provider.status = 400 →
      POST imageBase64 apiKey provider parse
          = ⟨400, errBody "Invalid request. The image may be too large (max 50MB) or in an unsupported format."⟩
        ∧ clientErrorMessage (POST imageBase64 apiKey provider parse)
          = some "Invalid request. The image may be too large (max 50MB) or in an unsupported format.")
    ∧ (provider.status ≠ 401 → provider.status ≠ 429 → provider.status ≠ 400 →
      POST imageBase64 apiKey provider parse
          = ⟨500, errBody "Failed to analyze design. Please try again."⟩
        ∧ clientErrorMessage (POST imageBase64 apiKey provider parse)
          = some "Failed to analyze design. Please try again.") := by
  have hP : POST imageBase64 apiKey provider parse = afterValidation provider parse := by
    unfold POST
    rw [hval]
  rw [hP, afterValidation_not_ok provider parse hok]
  refine ⟨?_, ?_, ?_, ?_⟩
  · intro h
    rw [if_pos h]
    exact ⟨rfl, rfl⟩
  · intro h
    rw [if_neg (by rw [h]; decide), if_pos h]
    exact ⟨rfl, rfl⟩
  · intro h
    rw [if_neg (by rw [h]; decide), if_neg (by rw [h]; decide), if_pos h]
    exact ⟨rfl, rfl⟩
  · intro h1 h2 h3
    rw [if_neg h1, if_neg h2, if_neg h3]
    exact ⟨rfl, rfl⟩

/-- Witness for C7 with a concrete 401 provider reply. -/
theorem c7_provider_error_mapping_witness :
    POST (Json.str "data:image/png;base64,EEEE") (some "k7") ⟨false, 401, none⟩ (fun _ => none)
        = ⟨401, errBody "Invalid API key. Please check your PERPLEXITY_API_KEY."⟩
    ∧ clientErrorMessage (POST (Json.str "data:image/png;base64,EEEE") (some "k7")
        ⟨false, 401, none⟩ (fun _ => none))
        = some "Invalid API key. Please check your PERPLEXITY_API_KEY." :=
  (c7_provider_error_mapping (Json.str "data:image/png;base64,EEEE") (some "k7")
    "image/png".toList ⟨false, 401, none⟩ (fun _ => none) rfl rfl).1 rfl

/-- A nonempty character list makes a truthy JS string. -/
theorem str_truthy_of_ne (l : List Char) (h : l ≠ []) :
    (Json.str (String.mk l)).truthy = true := by
  have hne : String.mk l ≠ "" := fun he => h (congrArg String.data he)
  show (String.mk l != "") = true
  exact bne_iff_ne.mpr hne

/-- The data-URL regex accepts every well-formed image data URL and
captures its MIME type and payload. -/
theorem dataUrlMatch_wellformed (mtail payload : List Char)
    (hm0 : mtail ≠ []) (hsem : ';' ∉ mtail) (hp0 : payload ≠ [])
    (hpl : payload.all
        (fun c => !(c == '\n' || c == '\r' || c == '\u2028' || c == '\u2029')) = true) :
    dataUrlMatch ("data:image/".toList ++ mtail ++ ";base64,".toList ++ payload)
      = some ("image/".toList ++ mtail, payload) := by
  have hpre : "data:image/".toList.isPrefixOf
      ("data:image/".toList ++ mtail ++ ";base64,".toList ++ payload) = true := by
    simp only [List.append_assoc]
    exact isPrefixOf_append_self _ _
  have hdrop : ("data:image/".toList ++ mtail ++ ";base64,".toList ++ payload).drop 11
      = mtail ++ (";base64,".toList ++ payload) := by
    simp only [List.append_assoc]
    rw [(by decide : (11 : Nat) = "data:image/".toList.length)]
    exact drop_length_append _ _
  have hsemB : ";base64,".toList = ';' :: "base64,".toList := by decide
  have hall : ∀ c ∈ mtail, (c != ';') = true := fun c hc =>
    bne_iff_ne.mpr (fun he => hsem (he ▸ hc))
  have htake : (mtail ++ (";base64,".toList ++ payload)).takeWhile (fun c => c != ';')
      = mtail := by
    rw [hsemB, List.cons_append]
    exact takeWhile_append_of_false mtail _ hall (by decide)
  have hdropW : (mtail ++ (";base64,".toList ++ payload)).dropWhile (fun c => c != ';')
      = ';' :: ("base64,".toList ++ payload) := by
    rw [hsemB, List.cons_append]
    exact dropWhile_append_of_false mtail _ hall (by decide)
  have hshape : ';' :: ("base64,".toList ++ payload) = ";base64,".toList ++ payload := by
    rw [hsemB]
    simp
  have hafterpre : ";base64,".toList.isPrefixOf (';' :: ("base64,".toList ++ payload))
      = true := by
    rw [hshape]
    exact isPrefixOf_append_self _ _
  have hdrop8 : (';' :: ("base64,".toList ++ payload)).drop 8 = payload := by
    rw [hshape, (by decide : (8 : Nat) = ";base64,".toList.length)]
    exact drop_length_append _ _
  have hmne : (mtail != ([] : List Char)) = true := bne_iff_ne.mpr hm0
  have hpne : (payload != ([] : List Char)) = true := bne_iff_ne.mpr hp0
  simp only [dataUrlMatch, hpre, if_true, hdrop, htake, hdropW, hafterpre, hdrop8,
    hmne, hpne, hpl, Bool.and_self, Bool.and_true, Bool.true_and, if_pos]

/-- With no credential configured, every request whose payload is a
string starting with `data:image/` is rejected with the 500
credential-missing error before the MIME type is even parsed. -/
theorem validateRequest_missing_key (rest : List Char) :
    validateRequest (Json.str (String.mk ("data:image/".toList ++ rest))) none
      = .error ⟨500, errBody "API key not configured. Please set PERPLEXITY_API_KEY in your environment."⟩ := by
  have hne : "data:image/".toList ++ rest ≠ [] := by simp
  have hpre : "data:image/".toList.isPrefixOf
      (String.mk ("data:image/".toList ++ rest)).toList = true :=
    isPrefixOf_append_self _ _
  simp only [validateRequest, str_truthy_of_ne _ hne, Bool.not_true, Bool.false_eq_true,
    if_false, hpre]

/-- With a credential configured, a well-formed data URL whose MIME type
is outside the allow-list is rejected with the 400 unsupported-format
error. -/
theorem validateRequest_unsupported (mtail payload : List Char) (k : String) (hk : ¬ k = "")
    (hm0 : mtail ≠ []) (hsem : ';' ∉ mtail) (hp0 : payload ≠ [])
    (hpl : payload.all
        (fun c => !(c == '\n' || c == '\r' || c == '\u2028' || c == '\u2029')) = true)
    (hsup : supportedFormatsChars.contains ("image/".toList ++ mtail) = false) :
    validateRequest (Json.str (String.mk
        ("data:image/".toList ++ mtail ++ ";base64,".toList ++ payload))) (some k)
      = .error ⟨400, errBody "Unsupported image format. Please use PNG, JPEG, WEBP, or GIF."⟩ := by
  have hne : "data:image/".toList ++ mtail ++ ";base64,".toList ++ payload ≠ [] := by
    intro he
    have h2 := congrArg List.length he
    simp only [List.append_assoc, List.length_append, List.length_nil] at h2
    have h3 : "data:image/".toList.length = 0 := by omega
    exact absurd h3 (by decide)
  have htl : (String.mk
      ("data:image/".toList ++ mtail ++ ";base64,".toList ++ payload)).toList
      = "data:image/".toList ++ mtail ++ ";base64,".toList ++ payload := rfl
  have hpre : "data:image/".toList.isPrefixOf
      ("data:image/".toList ++ mtail ++ ";base64,".toList ++ payload) = true := by
    simp only [List.append_assoc]
    exact isPrefixOf_append_self _ _
  have hmatch := dataUrlMatch_wellformed mtail payload hm0 hsem hp0 hpl
  simp only [validateRequest, str_truthy_of_ne _ hne, Bool.not_true, Bool.false_eq_true,
    if_false, htl, hpre, if_neg hk, hmatch, hsup, if_true]

/-- C1 (amended, proved): for a well-formed data URL
`data:image/<mtail>;base64,<payload>` whose MIME type is outside the
allow-list, the handler's response never depends on the provider reply
(no outbound call is observable), but the credential check comes first:
with no credential the response is the 500 credential error, and only
with a credential configured is it the 400 unsupported-format error. -/
theorem c1_unsupported_mime_rejected_order (mtail payload : List Char)
    (provider : ProviderReply) (parse : List Char → Option Json) (k : String)
    (hm0 : mtail ≠ []) (hsem : ';' ∉ mtail) (hp0 : payload ≠ [])
    (hpl : payload.all
        (fun c => !(c == '\n' || c == '\r' || c == '\u2028' || c == '\u2029')) = true)
    (hsup : supportedFormatsChars.contains ("image/".toList ++ mtail) = false)
    (hk : ¬ k = "") :
    POST (Json.str (String.mk ("data:image/".toList ++ mtail ++ ";base64,".toList ++ payload)))
        none provider parse
      = ⟨500, errBody "API key not configured. Please set PERPLEXITY_API_KEY in your environment."⟩
    ∧ POST (Json.str (String.mk ("data:image/".toList ++ mtail ++ ";base64,".toList ++ payload)))
        (some k) provider parse
      = ⟨400, errBody "Unsupported image format. Please use PNG, JPEG, WEBP, or GIF."⟩ := by
  constructor
  · unfold POST
    have hsh : "data:image/".toList ++ mtail ++ ";base64,".toList ++ payload
        = "data:image/".toList ++ (mtail ++ (";base64,".toList ++ payload)) := by
      simp
    rw [hsh, validateRequest_missing_key]
  · unfold POST
    rw [validateRequest_unsupported mtail payload k hk hm0 hsem hp0 hpl hsup]

/-- Witness for C1's amended statement at `image/bmp`. -/
theorem c1_unsupported_mime_rejected_order_witness :
    POST (Json.str (String.mk
        ("data:image/".toList ++ "bmp".toList ++ ";base64,".toList ++ "AAAA".toList)))
        none ⟨false, 500, none⟩ (fun _ => none)
      = ⟨500, errBody "API key not configured. Please set PERPLEXITY_API_KEY in your environment."⟩
    ∧ POST (Json.str (String.mk
        ("data:image/".toList ++ "bmp".toList ++ ";base64,".toList ++ "AAAA".toList)))
        (some "kk") ⟨false, 500, none⟩ (fun _ => none)
      = ⟨400, errBody "Unsupported image format. Please use PNG, JPEG, WEBP, or GIF."⟩ :=
  c1_unsupported_mime_rejected_order "bmp".toList "AAAA".toList ⟨false, 500, none⟩
    (fun _ => none) "kk" (by decide) (by decide) (by decide) (by decide) (by decide)
    (by decide)

/-- Counterexample to C1 as stated: with the credential unset, a
well-formed `image/bmp` data URL is answered with the 500
credential-missing error, not a 400-class unsupported-format error — the
credential check (route.ts line 92) precedes the MIME allow-list check
(route.ts line 101). -/
theorem c1_counterexample_credential_checked_first :
    POST (Json.str "data:image/bmp;base64,AAAA") none ⟨true, 200, none⟩ (fun _ => none)
      = ⟨500, errBody "API key not configured. Please set PERPLEXITY_API_KEY in your environment."⟩
    ∧ (POST (Json.str "data:image/bmp;base64,AAAA") none ⟨true, 200, none⟩
        (fun _ => none)).status ≠ 400 :=
  ⟨rfl, by decide⟩

/-- C8 (amended, proved): a rejected file (bad type or > 50 MiB) sets
only the error; the asynchronous read-failure callback sets only the
error; but acceptance itself first records the filename and clears error
and result, so after an accepted file's read fails, the image is
untouched while the filename has been overwritten and the result
cleared. -/
theorem c8_handleFile_frame (s : ClientState) (f : JsFile) :
    (clientSupportedFormats.contains f.type = false →
      handleFileSync s f
        = { s with error := some "Please upload a supported image file (PNG, JPG, WEBP, GIF)" })
    ∧ (clientSupportedFormats.contains f.type = true → f.size > 50 * 1024 * 1024 →
      handleFileSync s f = { s with error := some "Image must be less than 50MB" })
    ∧ (∀ s' : ClientState, handleFileRead s' .failure
        = { s' with error := some "Failed to read the image file" })
    ∧ (clientSupportedFormats.contains f.type = true → f.size ≤ 50 * 1024 * 1024 →
      (handleFileRead (handleFileSync s f) .failure).image = s.image
      ∧ (handleFileRead (handleFileSync s f) .failure).fileName = f.name
      ∧ (handleFileRead (handleFileSync s f) .failure).result = none
      ∧ (handleFileRead (handleFileSync s f) .failure).error
          = some "Failed to read the image file") := by
  refine ⟨?_, ?_, fun s' => rfl, ?_⟩
  · intro h
    have h' : f.type ∉ clientSupportedFormats := by simpa using h
    simp [handleFileSync, h']
  · intro h hsz
    have h' : f.type ∈ clientSupportedFormats := by simpa using h
    simp [handleFileSync, h', hsz]
  · intro h hsz
    have h' : f.type ∈ clientSupportedFormats := by simpa using h
    have hsync : handleFileSync s f
        = { s with fileName := f.name, error := none, result := none } := by
      simp [handleFileSync, h', Nat.not_lt.mpr hsz]
    rw [hsync]
    exact ⟨rfl, rfl, rfl, rfl⟩

/-- Witness for C8's amended statement: a rejected PDF only sets the
error, and an accepted GIF whose read fails keeps the prior image. -/
theorem c8_handleFile_frame_witness :
    handleFileSync ⟨none, "", none, none⟩ ⟨"application/pdf", 5, "doc.pdf"⟩
      = { (⟨none, "", none, none⟩ : ClientState) with
          error := some "Please upload a supported image file (PNG, JPG, WEBP, GIF)" }
    ∧ (handleFileRead (handleFileSync ⟨some "i", "n", none, none⟩
        ⟨"image/gif", 10, "g.gif"⟩) .failure).image = some "i" :=
  ⟨(c8_handleFile_frame ⟨none, "", none, none⟩ ⟨"application/pdf", 5, "doc.pdf"⟩).1
      (by decide),
    ((c8_handleFile_frame ⟨some "i", "n", none, none⟩
        ⟨"image/gif", 10, "g.gif"⟩).2.2.2 (by decide) (by decide)).1⟩

/-- Counterexample to C8 as stated: starting from a state holding a
result and a filename, an accepted PNG whose read subsequently fails ends
with the error set but the result cleared and the filename overwritten —
the prior (filename, result) are not left untouched. -/
theorem c8_counterexample_result_cleared :
    (handleFileRead (handleFileSync
        ⟨some "img0", "old.png", none, some (Json.str "r")⟩
        ⟨"image/png", 100, "new.png"⟩) .failure).result = none
    ∧ (⟨some "img0", "old.png", none, some (Json.str "r")⟩ : ClientState).result
        = some (Json.str "r")
    ∧ (handleFileRead (handleFileSync
        ⟨some "img0", "old.png", none, some (Json.str "r")⟩
        ⟨"image/png", 100, "new.png"⟩) .failure).fileName = "new.png"
    ∧ (⟨some "img0", "old.png", none, some (Json.str "r")⟩ : ClientState).fileName
        = "old.png"
    ∧ (handleFileRead (handleFileSync
        ⟨some "img0", "old.png", none, some (Json.str "r")⟩
        ⟨"image/png", 100, "new.png"⟩) .failure).error
        = some "Failed to read the image file" :=
  ⟨rfl, rfl, rfl, rfl, rfl⟩

/-- C9 (confirmed): the handler is a pure function of the request value,
the credential, and the (stubbed) provider reply — the embedding consults
no clock, randomness, or mutable state — so two invocations with the same
inputs agree on the status and on the response body (hence on any
deterministic serialization of it). -/
theorem c9_deterministic (imageBase64 : Json) (apiKey : Option String)
    (provider : ProviderReply) (parse : List Char → Option Json) :
    (POST imageBase64 apiKey provider parse).status
        = (POST imageBase64 apiKey provider parse).status
    ∧ (POST imageBase64 apiKey provider parse).body
        = (POST imageBase64 apiKey provider parse).body
    ∧ POST imageBase64 apiKey provider parse = POST imageBase64 apiKey provider parse :=
  ⟨rfl, rfl, rfl⟩
